import Mathlib

/-!
Shallow embedding of the PQRS analytics/dashboard engine
(`app/repositories/dashboard_repository.py`, `app/services/dashboard_service.py`,
`app/routers/dashboard.py`, `app/models/pqrs.py`, `app/core/config.py`).

Conventions of the embedding:
* timestamps are calendar records (year, month, day, second-of-day); `Timestamp.key`
  linearises the calendar order (strictly monotone on valid dates), so SQL
  comparisons on `created_at` become comparisons of keys;
* SQL dates in filter bounds are cast to midnight timestamps, as PostgreSQL does;
* numeric SQL aggregates are modelled over `ℚ`; `round(x, 2)` is modelled as
  rounding `x*100` to the nearest integer (Python's float banker's rounding can
  differ only on exact ties, which no claim touches);
* `GROUP BY` output is modelled in first-appearance order of the underlying rows,
  and `ORDER BY` as a stable sort — one concrete resolution of orders the SQL
  leaves unspecified;
* the source model `PQRS` declares no `department_id` column (the repository's
  `_apply_filters` department branch references a nonexistent attribute), so the
  embedded filter carries only the date bounds.
-/

namespace Pqrs

/-- Status values: the string statuses the repository compares against
('nueva', 'en_revision', 'en_proceso', 'pendiente_informacion', 'resuelta',
'cerrada', 'rechazada'). -/
inductive Status where
  | nueva
  | en_revision
  | en_proceso
  | pendiente_informacion
  | resuelta
  | cerrada
  | rechazada
  deriving DecidableEq, Repr

/-- PQRS types, from `PQRSType` in `app/models/pqrs.py`. -/
inductive PType where
  | peticion
  | queja
  | reclamo
  | sugerencia
  deriving DecidableEq, Repr

/-- A calendar timestamp: year, month (1-12), day (1-31), second of day (0-86399). -/
structure Timestamp where
  year : Nat
  month : Nat
  day : Nat
  secOfDay : Nat
  deriving DecidableEq, Repr

/-- Linearisation of calendar order: strictly monotone in lexicographic
(year, month, day, secOfDay) order whenever month <= 12, day <= 31 and
secOfDay < 86400, so key comparison models SQL timestamp comparison. -/
def Timestamp.key (t : Timestamp) : Nat :=
  ((t.year * 12 + t.month) * 31 + t.day) * 86400 + t.secOfDay

/-- The `to_char(created_at, 'YYYY-MM')` grouping label, encoded as a number
that sorts exactly like the string does. -/
def Timestamp.monthLabel (t : Timestamp) : Nat :=
  t.year * 100 + t.month

/-- Gregorian leap-year test. -/
def isLeapYear (y : Nat) : Bool :=
  (y % 4 == 0 && y % 100 != 0) || (y % 400 == 0)

/-- Days in a Gregorian month. -/
def daysInMonth (y m : Nat) : Nat :=
  match m with
  | 2 => if isLeapYear y then 29 else 28
  | 4 => 30
  | 6 => 30
  | 9 => 30
  | 11 => 30
  | _ => 31

/-- Ordinal day within the year (1-based). -/
def dayOfYear (t : Timestamp) : Nat :=
  ((List.range (t.month - 1)).map (fun i => daysInMonth t.year (i + 1))).sum + t.day

/-- Zeller's congruence: day of week with 0 = Saturday. -/
def zellerWeekday (y m d : Nat) : Nat :=
  let Y := if m ≤ 2 then y - 1 else y
  let M := if m ≤ 2 then m + 12 else m
  let K := Y % 100
  let J := Y / 100
  (d + (13 * (M + 1)) / 5 + K + K / 4 + J / 4 + 5 * J) % 7

/-- ISO weekday: Monday = 1 .. Sunday = 7. -/
def isoWeekday (y m d : Nat) : Nat :=
  (zellerWeekday y m d + 5) % 7 + 1

/-- Number of ISO weeks in a year (53 iff 1 January is a Thursday, or the year
is leap and 1 January is a Wednesday; else 52). -/
def isoWeeksInYear (y : Nat) : Nat :=
  if isoWeekday y 1 1 == 4 || (isLeapYear y && isoWeekday y 1 1 == 3) then 53 else 52

/-- ISO week-numbering year and week of a timestamp (the `IYYY` and `IW`
fields of PostgreSQL's `to_char`). -/
def isoWeekPair (t : Timestamp) : Nat × Nat :=
  let doy := dayOfYear t
  let wd := isoWeekday t.year t.month t.day
  let w := (10 + doy - wd) / 7
  if w = 0 then (t.year - 1, isoWeeksInYear (t.year - 1))
  else if isoWeeksInYear t.year < w then (t.year + 1, 1)
  else (t.year, w)

/-- The `to_char(created_at, 'IYYY-IW')` grouping label, encoded as a number
that sorts exactly like the string does. -/
def Timestamp.weekLabel (t : Timestamp) : Nat :=
  (isoWeekPair t).1 * 100 + (isoWeekPair t).2

/-- A calendar date (the router's query parameters are dates, not timestamps). -/
structure Date where
  year : Nat
  month : Nat
  day : Nat
  deriving DecidableEq, Repr

/-- SQL casts a date to the timestamp at its midnight when comparing against a
timestamp column. -/
def Date.toTs (d : Date) : Timestamp :=
  ⟨d.year, d.month, d.day, 0⟩

/-- A case record, from the `PQRS` model: type, status, creation / last-update /
due timestamps, optional resolution timestamp and assignee. -/
structure Case where
  id : Nat
  type : PType
  status : Status
  created_at : Timestamp
  updated_at : Timestamp
  due_date : Timestamp
  resolved_at : Option Timestamp
  assigned_to : Option Nat
  deriving DecidableEq, Repr

/-- A user record (`User` model): id and full name, as used by the manager join. -/
structure User where
  id : Nat
  full_name : String
  deriving DecidableEq, Repr

/-- A comment record (`PQRSComment`): the case it belongs to and when it was made. -/
structure Comment where
  pqrs_id : Nat
  created_at : Timestamp
  deriving DecidableEq, Repr

/-- The case store visible to the dashboard queries. -/
structure DB where
  cases : List Case
  users : List User
  comments : List Comment
  deriving DecidableEq, Repr

/-- The date-bound part of `_apply_filters`: `created_at >= start_date` when a
start is given and `created_at <= end_date` when an end is given (both
comparisons are the inclusive ones the source writes). -/
def inDateRange (s e : Option Date) (c : Case) : Bool :=
  (match s with
   | some d => decide (d.toTs.key ≤ c.created_at.key)
   | none => true) &&
  (match e with
   | some d => decide (c.created_at.key ≤ d.toTs.key)
   | none => true)

/-- Terminal statuses: the repository's `status == 'resuelta' or status == 'cerrada'`. -/
def isTerminal : Status → Bool
  | .resuelta => true
  | .cerrada => true
  | _ => false

/-- The in-progress status set of `get_manager_performance`:
`['en_proceso', 'en_revision', 'pendiente_informacion']`. -/
def isInProgress : Status → Bool
  | .en_proceso => true
  | .en_revision => true
  | .pendiente_informacion => true
  | _ => false

/-- Python's `round(x, 2)`: round to two decimals (ties resolved to nearest;
no claim depends on exact-tie behaviour). -/
def round2 (q : ℚ) : ℚ :=
  ((round (q * 100) : ℤ) : ℚ) / 100

/-- SQL `AVG` over a list of values: `NULL` on the empty list, else the mean. -/
def sqlAvg (l : List ℚ) : Option ℚ :=
  if l.isEmpty then none else some (l.sum / (l.length : ℚ))

/-- The repeated Python post-processing `round(avg, 2) if avg else None`:
`None` stays `None`, and a value of exactly 0 is also collapsed to `None`
because Python treats `0.0` as falsy. -/
def pyTruthyRound2 : Option ℚ → Option ℚ
  | none => none
  | some a => if a = 0 then none else some (round2 a)

/-- Resolution duration in days: `extract('epoch', updated_at - created_at) / 86400`. -/
def resolutionDays (c : Case) : ℚ :=
  ((c.updated_at.key : ℚ) - (c.created_at.key : ℚ)) / 86400

/-- Fuel-indexed worker for `distinctKeys` (structural recursion on the fuel,
so the kernel can evaluate it on concrete inputs). -/
def distinctAux {α : Type} [DecidableEq α] : Nat → List α → List α
  | 0, _ => []
  | _ + 1, [] => []
  | n + 1, a :: t => a :: distinctAux n (t.filter (fun x => decide (x ≠ a)))

/-- First-appearance list of the distinct elements of a list (models the row
set a SQL `GROUP BY` produces, one row per distinct key). -/
def distinctKeys {α : Type} [DecidableEq α] (l : List α) : List α :=
  distinctAux l.length l

/-- Smallest element of a list of keys (models `min(created_at)` of the
first-comment subquery). -/
def minKey? : List Nat → Option Nat
  | [] => none
  | a :: t =>
    match minKey? t with
    | none => some a
    | some b => some (min a b)

/-- The filtered case population: `SELECT ... FROM pqrs` with `_apply_filters`. -/
def filteredCases (db : DB) (s e : Option Date) : List Case :=
  db.cases.filter (inDateRange s e)

/-- Embeds `DashboardRepository.get_total_pqrs`: `count(PQRS.id)` under `_apply_filters`. -/
def get_total_pqrs (db : DB) (s e : Option Date) : Nat :=
  (filteredCases db s e).length

/-- Embeds `DashboardRepository.get_pqrs_by_status`: count of cases with the given
status under `_apply_filters`. -/
def get_pqrs_by_status (db : DB) (st : Status) (s e : Option Date) : Nat :=
  (db.cases.filter (fun c => decide (c.status = st) && inDateRange s e c)).length

/-- Embeds `DashboardRepository.get_avg_response_time_hours`: joins each case to the
minimum comment timestamp (cases without comments drop out of the inner join),
averages `(first_comment_at - created_at) / 3600` over cases within the date
bounds, then applies `round(avg, 2) if avg else None`. -/
def get_avg_response_time_hours (db : DB) (s e : Option Date) : Option ℚ :=
  let vals := (db.cases.filter (inDateRange s e)).filterMap (fun c =>
    match minKey? ((db.comments.filter (fun m => m.pqrs_id == c.id)).map
        (fun m => m.created_at.key)) with
    | some k => some (((k : ℚ) - (c.created_at.key : ℚ)) / 3600)
    | none => none)
  pyTruthyRound2 (sqlAvg vals)

/-- Embeds `DashboardRepository.get_avg_resolution_time_days`: averages
`(updated_at - created_at) / 86400` over resolved/closed cases within the date
bounds, then applies `round(avg, 2) if avg else None`. -/
def get_avg_resolution_time_days (db : DB) (s e : Option Date) : Option ℚ :=
  pyTruthyRound2 (sqlAvg
    ((db.cases.filter (fun c => isTerminal c.status && inDateRange s e c)).map
      resolutionDays))

/-- Embeds `DashboardRepository.get_resolution_rate`: `0.0` when the total is zero,
else `round((resolved + closed) / total * 100, 2)`, each count taken under the
same date bounds. -/
def get_resolution_rate (db : DB) (s e : Option Date) : ℚ :=
  let total := get_total_pqrs db s e
  if total = 0 then 0
  else round2
    (((get_pqrs_by_status db .resuelta s e + get_pqrs_by_status db .cerrada s e : Nat) : ℚ)
      / (total : ℚ) * 100)

/-- The spec's `ratio` metric primitive as the code pattern implements it
inline (`get_resolution_rate`, the percentage fields): `0.0` when the
denominator is zero, else `round(num / den * 100, 2)`. A total function on ℚ:
it cannot raise and cannot produce an infinity or a NaN. -/
def ratio (num den : ℚ) : ℚ :=
  if den = 0 then 0 else round2 (num / den * 100)

/-- Embeds `DashboardRepository.get_active_managers_count`: `count(distinct assigned_to)`
over cases with an assignee and a non-terminal status — note the source applies
no date or department filter here. -/
def get_active_managers_count (db : DB) : Nat :=
  (distinctKeys
    ((db.cases.filter (fun c => c.assigned_to.isSome && !(isTerminal c.status))).filterMap
      (fun c => c.assigned_to))).length

/-- One output row of `get_statistics_by_type`. -/
structure TypeRow where
  type : PType
  count : Nat
  percentage : ℚ
  resolved : Nat
  avg_resolution_days : Option ℚ
  deriving DecidableEq, Repr

/-- One aggregated `GROUP BY type` row of `get_statistics_by_type`: count,
percentage against the filtered total (`0.0` when the total is zero),
resolved count, and the truthiness-rounded average resolution days of the
row's terminal cases. -/
def typeRowOf (total : Nat) (filtered : List Case) (t : PType) : TypeRow :=
  let g := filtered.filter (fun c => decide (c.type = t))
  let gterm := g.filter (fun c => isTerminal c.status)
  { type := t,
    count := g.length,
    percentage := if 0 < total then round2 ((g.length : ℚ) / (total : ℚ) * 100) else 0,
    resolved := gterm.length,
    avg_resolution_days := pyTruthyRound2 (sqlAvg (gterm.map resolutionDays)) }

/-- Embeds `DashboardRepository.get_statistics_by_type`: `GROUP BY type` over
the filtered cases — one row per type value actually present. -/
def get_statistics_by_type (db : DB) (s e : Option Date) : List TypeRow :=
  (distinctKeys ((filteredCases db s e).map (fun c => c.type))).map
    (typeRowOf (get_total_pqrs db s e) (filteredCases db s e))

/-- One output row of `get_statistics_by_status`. -/
structure StatusRow where
  status : Status
  count : Nat
  percentage : ℚ
  avg_days_in_status : Option ℚ
  deriving DecidableEq, Repr

/-- Embeds `DashboardRepository.get_statistics_by_status`: `GROUP BY status` over the
filtered cases; `avg_days_in_status` averages `(now() - updated_at) / 86400`. -/
def get_statistics_by_status (db : DB) (now : Timestamp) (s e : Option Date) :
    List StatusRow :=
  let total := get_total_pqrs db s e
  let filtered := filteredCases db s e
  (distinctKeys (filtered.map (fun c => c.status))).map (fun st =>
    let g := filtered.filter (fun c => decide (c.status = st))
    { status := st,
      count := g.length,
      percentage := if 0 < total then round2 ((g.length : ℚ) / (total : ℚ) * 100) else 0,
      avg_days_in_status := pyTruthyRound2 (sqlAvg (g.map (fun c =>
        ((now.key : ℚ) - (c.updated_at.key : ℚ)) / 86400))) })

/-- One output row of `get_manager_performance`. -/
structure ManagerRow where
  manager_id : Nat
  manager_name : String
  total_assigned : Nat
  resolved : Nat
  in_progress : Nat
  avg_resolution_days : Option ℚ
  resolution_rate : ℚ
  deriving DecidableEq, Repr

/-- The `ORDER BY count(PQRS.id) DESC` comparison of `get_manager_performance`
— the only sort key the source uses: no secondary key breaks ties. -/
def byTotalDesc (a b : ManagerRow) : Prop :=
  b.total_assigned ≤ a.total_assigned

instance : DecidableRel byTotalDesc := fun a b =>
  inferInstanceAs (Decidable (b.total_assigned ≤ a.total_assigned))

instance : IsTotal ManagerRow byTotalDesc :=
  ⟨fun a b => Nat.le_total b.total_assigned a.total_assigned⟩

instance : IsTrans ManagerRow byTotalDesc :=
  ⟨fun _ _ _ h1 h2 => Nat.le_trans h2 h1⟩

/-- Embeds the `User` lookup backing the `PQRS.assigned_to == User.id` inner join. -/
def findUser (us : List User) (m : Nat) : Option User :=
  us.find? (fun u => u.id == m)

/-- Embeds `DashboardRepository.get_manager_performance`: inner-joins assigned cases
to users, groups by `(assigned_to, full_name)`, aggregates, orders by
`total_assigned` descending (stably: tied groups keep first-appearance order)
and truncates to `limit` rows. -/
def get_manager_performance (db : DB) (s e : Option Date) (limit : Nat) :
    List ManagerRow :=
  let rows := (db.cases.filter (inDateRange s e)).filterMap (fun c =>
    match c.assigned_to with
    | some m =>
      match findUser db.users m with
      | some u => some (c, m, u.full_name)
      | none => none
    | none => none)
  let keys := distinctKeys (rows.map (fun r => (r.2.1, r.2.2)))
  let groups := keys.map (fun k =>
    let g := (rows.filter (fun r => decide ((r.2.1, r.2.2) = k))).map (fun r => r.1)
    let total := g.length
    let resolvedN := (g.filter (fun c => isTerminal c.status)).length
    { manager_id := k.1,
      manager_name := k.2,
      total_assigned := total,
      resolved := resolvedN,
      in_progress := (g.filter (fun c => isInProgress c.status)).length,
      avg_resolution_days :=
        pyTruthyRound2 (sqlAvg ((g.filter (fun c => isTerminal c.status)).map resolutionDays)),
      resolution_rate :=
        if 0 < total then round2 ((resolvedN : ℚ) / (total : ℚ) * 100) else 0 })
  (List.insertionSort byTotalDesc groups).take limit

/-- One output row of the trend queries. -/
structure TrendRow where
  period : Nat
  count : Nat
  resolved : Nat
  avg_resolution_days : Option ℚ
  deriving DecidableEq, Repr

/-- The `ORDER BY period DESC` comparison of the trend queries. -/
def periodDesc (a b : Nat) : Prop :=
  b ≤ a

instance : DecidableRel periodDesc := fun a b =>
  inferInstanceAs (Decidable (b ≤ a))

instance : IsTotal Nat periodDesc :=
  ⟨fun a b => Nat.le_total b a⟩

instance : IsTrans Nat periodDesc :=
  ⟨fun _ _ _ h1 h2 => Nat.le_trans h2 h1⟩

/-- One aggregated trend row for a period key: count of the period's cases,
count of its terminal cases, and their truthiness-rounded average resolution
days. -/
def trendRowOf (per : Timestamp → Nat) (filtered : List Case) (k : Nat) : TrendRow :=
  let g := filtered.filter (fun c => decide (per c.created_at = k))
  let gterm := g.filter (fun c => isTerminal c.status)
  { period := k,
    count := g.length,
    resolved := gterm.length,
    avg_resolution_days := pyTruthyRound2 (sqlAvg (gterm.map resolutionDays)) }

/-- Common shape of `get_trends_by_month` / `get_trends_by_week`: group the
filtered cases by the period label of `created_at`, order the period rows
descending, keep the `n` most recent, aggregate each group, and reverse so the
oldest kept period comes first. Periods with no cases produce no row. -/
def trendRows (per : Timestamp → Nat) (db : DB) (s e : Option Date) (n : Nat) :
    List TrendRow :=
  let filtered := filteredCases db s e
  let keys := distinctKeys (filtered.map (fun c => per c.created_at))
  let top := (List.insertionSort periodDesc keys).take n
  (top.map (trendRowOf per filtered)).reverse

/-- Embeds `DashboardRepository.get_trends_by_month`: trends grouped by the
`'YYYY-MM'` label. -/
def get_trends_by_month (db : DB) (s e : Option Date) (months : Nat) : List TrendRow :=
  trendRows Timestamp.monthLabel db s e months

/-- Embeds `DashboardRepository.get_trends_by_week`: trends grouped by the
`'IYYY-IW'` ISO-week label. -/
def get_trends_by_week (db : DB) (s e : Option Date) (weeks : Nat) : List TrendRow :=
  trendRows Timestamp.weekLabel db s e weeks

/-- The dictionary `get_time_analysis` returns. -/
structure TimeAnalysisRow where
  avg_resolution_days : Option ℚ
  median_resolution_days : Option ℚ
  resolved_within_24h : Nat
  resolved_within_3d : Nat
  resolved_within_7d : Nat
  resolved_within_15d : Nat
  resolved_over_15d : Nat
  deriving DecidableEq, Repr

/-- Embeds `DashboardRepository.get_time_analysis`: average resolution days over the
terminal cases within the date bounds, a hard-coded `None` median, and the
elif-chain distribution of resolution durations into five buckets. -/
def get_time_analysis (db : DB) (s e : Option Date) : TimeAnalysisRow :=
  let resolvedCases := db.cases.filter (fun c => isTerminal c.status && inDateRange s e c)
  let ds := resolvedCases.map resolutionDays
  { avg_resolution_days := pyTruthyRound2 (sqlAvg ds),
    median_resolution_days := none,
    resolved_within_24h := (ds.filter (fun d => decide (d < 1))).length,
    resolved_within_3d := (ds.filter (fun d => decide (1 ≤ d ∧ d < 3))).length,
    resolved_within_7d := (ds.filter (fun d => decide (3 ≤ d ∧ d < 7))).length,
    resolved_within_15d := (ds.filter (fun d => decide (7 ≤ d ∧ d < 15))).length,
    resolved_over_15d := (ds.filter (fun d => decide (15 ≤ d))).length }

/-- The service-level `TimeAnalysis` response. -/
structure TimeAnalysis where
  avg_first_response_hours : Option ℚ
  avg_resolution_days : Option ℚ
  median_resolution_days : Option ℚ
  resolved_within_24h : Nat
  resolved_within_3d : Nat
  resolved_within_7d : Nat
  resolved_within_15d : Nat
  resolved_over_15d : Nat
  deriving DecidableEq, Repr

/-- Embeds `DashboardService.get_time_analysis`: combines the repository's time
analysis with the first-response average. -/
def service_get_time_analysis (db : DB) (s e : Option Date) : TimeAnalysis :=
  let data := get_time_analysis db s e
  { avg_first_response_hours := get_avg_response_time_hours db s e,
    avg_resolution_days := data.avg_resolution_days,
    median_resolution_days := data.median_resolution_days,
    resolved_within_24h := data.resolved_within_24h,
    resolved_within_3d := data.resolved_within_3d,
    resolved_within_7d := data.resolved_within_7d,
    resolved_within_15d := data.resolved_within_15d,
    resolved_over_15d := data.resolved_over_15d }

/-- The `OverviewKPIs` bundle of `DashboardService.get_kpis`. -/
structure KpisRow where
  total_pqrs : Nat
  new_pqrs : Nat
  in_progress : Nat
  resolved : Nat
  closed : Nat
  avg_response_time_hours : Option ℚ
  avg_resolution_time_days : Option ℚ
  resolution_rate : ℚ
  satisfaction_rate : Option ℚ
  active_managers : Nat
  deriving DecidableEq, Repr

/-- Embeds `DashboardService.get_kpis`: the source passes the date bounds (and, were
it usable, the department) to the counts, only the date bounds to the averages
and the resolution rate, and nothing at all to `get_active_managers_count`. -/
def get_kpis (db : DB) (s e : Option Date) : KpisRow :=
  { total_pqrs := get_total_pqrs db s e,
    new_pqrs := get_pqrs_by_status db .nueva s e,
    in_progress := get_pqrs_by_status db .en_proceso s e,
    resolved := get_pqrs_by_status db .resuelta s e,
    closed := get_pqrs_by_status db .cerrada s e,
    avg_response_time_hours := get_avg_response_time_hours db s e,
    avg_resolution_time_days := get_avg_resolution_time_days db s e,
    resolution_rate := get_resolution_rate db s e,
    satisfaction_rate := none,
    active_managers := get_active_managers_count db }

/-- The `DashboardOverview` payload of `DashboardService.get_overview`. -/
structure Overview where
  kpis : KpisRow
  by_type : List TypeRow
  by_status : List StatusRow
  top_managers : List ManagerRow
  recent_trends : List TrendRow
  generated_at : Timestamp
  period_start : Option Date
  period_end : Option Date
  deriving DecidableEq, Repr

/-- Embeds `DashboardService.get_overview`: KPIs, both breakdowns, the top-5 manager
ranking and the last-6-months trends, stamped with the wall clock. -/
def get_overview (db : DB) (now : Timestamp) (s e : Option Date) : Overview :=
  { kpis := get_kpis db s e,
    by_type := get_statistics_by_type db s e,
    by_status := get_statistics_by_status db now s e,
    top_managers := get_manager_performance db s e 5,
    recent_trends := get_trends_by_month db s e 6,
    generated_at := now,
    period_start := s,
    period_end := e }

/-- The router handler `get_dashboard_overview`: forwards the query parameters
to the service unchanged — no validation of the date bounds happens anywhere
on the path, so a `start > end` pair reaches the queries untouched. -/
def dashboard_overview_endpoint (db : DB) (now : Timestamp) (s e : Option Date) :
    Overview :=
  get_overview db now s e

/-- Threshold below which a case counts as on track, from
`SEMAPHORE_GREEN_THRESHOLD = 60` in `app/core/config.py` (percent of the
allotted time). -/
def SEMAPHORE_GREEN_THRESHOLD : Nat := 60

/-- Threshold up to which a case counts as at risk, from
`SEMAPHORE_YELLOW_THRESHOLD = 90` in `app/core/config.py` (percent of the
allotted time). -/
def SEMAPHORE_YELLOW_THRESHOLD : Nat := 90

/-- Three-state SLA severity (the `SemaphoreColor` enum: verde / amarillo / rojo). -/
inductive SlaState where
  | on_track
  | at_risk
  | overdue
  deriving DecidableEq, Repr

/-- Modelled from the spec: the three-state SLA classifier of spec section 4.3.
The source declares its ingredients — the `SemaphoreColor` enum, the stored
`semaphore_color` column, the boolean `PQRS.is_overdue`, and the config
thresholds `SEMAPHORE_GREEN_THRESHOLD = 60` / `SEMAPHORE_YELLOW_THRESHOLD = 90`
("less than 60% of the allotted time: green; between 60% and 90%: yellow;
more than 90%: red") — but the function applying the thresholds is not under
`src/`. Terminal cases are always on track; otherwise the elapsed share of the
allotted time is compared against the config thresholds (integer cross
multiplication, so no division); a malformed deadline (`due <= created`) is
overdue. -/
def classify (c : Case) (now : Nat) : SlaState :=
  if isTerminal c.status then .on_track
  else
    let elapsed : Int := (now : Int) - (c.created_at.key : Int)
    let allotted : Int := (c.due_date.key : Int) - (c.created_at.key : Int)
    if allotted ≤ 0 then .overdue
    else if elapsed * 100 < (SEMAPHORE_GREEN_THRESHOLD : Int) * allotted then .on_track
    else if elapsed * 100 ≤ (SEMAPHORE_YELLOW_THRESHOLD : Int) * allotted then .at_risk
    else .overdue

/-- Modelled from the spec: the elapsed fraction of the allotted time,
(now - created_at) / (due_at - created_at), the quantity the claim's
thresholds 0.60 and 0.90 are stated over. -/
def slaFraction (c : Case) (now : Nat) : ℚ :=
  ((now : ℚ) - (c.created_at.key : ℚ)) / ((c.due_date.key : ℚ) - (c.created_at.key : ℚ))

/-- Shorthand for a midnight timestamp. -/
def ts0 (y m d : Nat) : Timestamp :=
  ⟨y, m, d, 0⟩

/-- An empty case store. -/
def dbEmpty : DB :=
  ⟨[], [], []⟩

/-- An unresolved case created 2024-01-01 with a 100-day deadline (due
2024-04-10, exactly 100 calendar days later). -/
def case100 : Case :=
  { id := 1, type := .peticion, status := .nueva, created_at := ts0 2024 1 1,
    updated_at := ts0 2024 1 1, due_date := ts0 2024 4 10, resolved_at := none,
    assigned_to := none }

/-- The same case marked resolved. -/
def case100res : Case :=
  { case100 with status := .resuelta, resolved_at := some (ts0 2024 4 10) }

/-- The instant exactly at `case100`'s deadline, 100 days after creation. -/
def now100 : Nat :=
  (ts0 2024 4 10).key

/-- Store with a single case, created in January 2024 (for the trend window). -/
def dbOneCase : DB :=
  ⟨[{ id := 1, type := .queja, status := .nueva, created_at := ts0 2024 1 10,
      updated_at := ts0 2024 1 10, due_date := ts0 2024 1 25, resolved_at := none,
      assigned_to := none }], [], []⟩

/-- Store with one open case assigned to manager 7, created 2024-01-15. -/
def dbActive : DB :=
  ⟨[{ id := 1, type := .reclamo, status := .nueva, created_at := ts0 2024 1 15,
      updated_at := ts0 2024 1 15, due_date := ts0 2024 1 30, resolved_at := none,
      assigned_to := some 7 }], [⟨7, "Gestor Uno"⟩], []⟩

/-- Store with two managers (ids 2 and 1) holding one open case each; manager
2's case comes first in the table. -/
def dbTwoManagers : DB :=
  ⟨[{ id := 1, type := .queja, status := .nueva, created_at := ts0 2024 2 1,
      updated_at := ts0 2024 2 1, due_date := ts0 2024 2 16, resolved_at := none,
      assigned_to := some 2 },
    { id := 2, type := .queja, status := .nueva, created_at := ts0 2024 2 2,
      updated_at := ts0 2024 2 2, due_date := ts0 2024 2 17, resolved_at := none,
      assigned_to := some 1 }],
   [⟨2, "Beatriz Gil"⟩, ⟨1, "Ana Ruiz"⟩], []⟩

/-- Store with a single resolved case whose last update equals its creation
time, so its resolution duration — and the average — is exactly zero. -/
def dbAvgZero : DB :=
  ⟨[{ id := 1, type := .peticion, status := .resuelta, created_at := ts0 2024 3 10,
      updated_at := ts0 2024 3 10, due_date := ts0 2024 3 25,
      resolved_at := some (ts0 2024 3 10), assigned_to := none }], [], []⟩

/-- Store with a single case created exactly at midnight of 2024-05-10. -/
def dbMidnight : DB :=
  ⟨[{ id := 1, type := .sugerencia, status := .nueva, created_at := ts0 2024 5 10,
      updated_at := ts0 2024 5 10, due_date := ts0 2024 6 10, resolved_at := none,
      assigned_to := none }], [], []⟩

/-- Store with a single case of type peticion (for the by-type row set). -/
def dbOnePeticion : DB :=
  ⟨[{ id := 1, type := .peticion, status := .nueva, created_at := ts0 2024 3 1,
      updated_at := ts0 2024 3 1, due_date := ts0 2024 3 16, resolved_at := none,
      assigned_to := none }], [], []⟩

/-- The fuel argument of `distinctAux` is irrelevant once it covers the list. -/
theorem distinctAux_eq_of_le {α : Type} [DecidableEq α] :
    ∀ (n m : Nat) (l : List α), l.length ≤ n → l.length ≤ m →
      distinctAux n l = distinctAux m l := by
  intro n
  induction n with
  | zero =>
    intro m l hn _
    have hl : l = [] := List.eq_nil_of_length_eq_zero (Nat.le_zero.mp hn)
    subst hl
    cases m <;> rfl
  | succ n ih =>
    intro m l hn hm
    cases l with
    | nil => cases m <;> rfl
    | cons a t =>
      cases m with
      | zero => simp at hm
      | succ m =>
        show a :: distinctAux n (t.filter (fun x => decide (x ≠ a))) =
          a :: distinctAux m (t.filter (fun x => decide (x ≠ a)))
        have hf : (t.filter (fun x => decide (x ≠ a))).length ≤ t.length :=
          List.length_filter_le _ _
        have htn : t.length ≤ n := by simpa using hn
        have htm : t.length ≤ m := by simpa using hm
        rw [ih m _ (hf.trans htn) (hf.trans htm)]

/-- Unfolding rule for `distinctKeys` on a cons cell. -/
theorem distinctKeys_cons {α : Type} [DecidableEq α] (a : α) (t : List α) :
    distinctKeys (a :: t) = a :: distinctKeys (t.filter (fun x => decide (x ≠ a))) := by
  show distinctAux (t.length + 1) (a :: t) = _
  show a :: distinctAux t.length (t.filter (fun x => decide (x ≠ a))) = _
  rw [distinctKeys, distinctAux_eq_of_le t.length _ _ (List.length_filter_le _ _) le_rfl]

/-- Unfolding rule for `distinctKeys` on the empty list. -/
theorem distinctKeys_nil {α : Type} [DecidableEq α] :
    distinctKeys ([] : List α) = [] := rfl

/-- Membership in the first-appearance distinct list is membership in the list. -/
theorem mem_distinctKeys {α : Type} [DecidableEq α] (l : List α) (a : α) :
    a ∈ distinctKeys l ↔ a ∈ l := by
  suffices h : ∀ (n : Nat) (l : List α), l.length ≤ n → (a ∈ distinctKeys l ↔ a ∈ l) from
    h l.length l le_rfl
  intro n
  induction n with
  | zero =>
    intro l hn
    have hl : l = [] := List.eq_nil_of_length_eq_zero (Nat.le_zero.mp hn)
    subst hl
    simp [distinctKeys_nil]
  | succ n ih =>
    intro l hn
    cases l with
    | nil => simp [distinctKeys_nil]
    | cons b t =>
      rw [distinctKeys_cons]
      have htn : t.length ≤ n := by simpa using hn
      by_cases hab : a = b
      · subst hab
        simp
      · rw [List.mem_cons, ih _ ((List.length_filter_le _ _).trans htn)]
        simp [List.mem_filter, hab]

/-- Filtering commutes with mapping: filtering the mapped list is mapping the
list filtered through the composed predicate. -/
theorem filter_map_comm {α κ : Type} (l : List α) (f : α → κ) (p : κ → Bool) :
    (l.map f).filter p = (l.filter (fun a => p (f a))).map f := by
  induction l with
  | nil => rfl
  | cons a t ih =>
    cases h : p (f a) <;> simp [List.filter_cons, h, ih]

/-- Grouping a list by a key and summing the group sizes over the distinct
keys recovers the length of the list: the heart of `sum(by_type counts) =
total`. -/
theorem sum_group_counts {α κ : Type} [DecidableEq κ] (l : List α) (f : α → κ) :
    ((distinctKeys (l.map f)).map
      (fun k => (l.filter (fun x => decide (f x = k))).length)).sum = l.length := by
  suffices h : ∀ (n : Nat) (l : List α), l.length ≤ n →
      ((distinctKeys (l.map f)).map
        (fun k => (l.filter (fun x => decide (f x = k))).length)).sum = l.length from
    h l.length l le_rfl
  intro n
  induction n with
  | zero =>
    intro l hn
    have hl : l = [] := List.eq_nil_of_length_eq_zero (Nat.le_zero.mp hn)
    subst hl
    rfl
  | succ n ih =>
    intro l hn
    cases l with
    | nil => rfl
    | cons a t =>
      have htn : t.length ≤ n := by simpa using hn
      rw [List.map_cons, distinctKeys_cons, filter_map_comm, List.map_cons, List.sum_cons]
      have h1 : ((a :: t).filter (fun x => decide (f x = f a))).length =
          (t.filter (fun x => decide (f x = f a))).length + 1 := by
        simp [List.filter_cons]
      have h2 : ∀ k ∈ distinctKeys ((t.filter (fun x => decide (f x ≠ f a))).map f),
          ((a :: t).filter (fun x => decide (f x = k))).length =
            ((t.filter (fun x => decide (f x ≠ f a))).filter
              (fun x => decide (f x = k))).length := by
        intro k hk
        have hkmem : k ∈ (t.filter (fun x => decide (f x ≠ f a))).map f :=
          (mem_distinctKeys _ _).mp hk
        obtain ⟨b, hb, rfl⟩ := List.mem_map.mp hkmem
        have hbne : f b ≠ f a := by
          have hmem := List.mem_filter.mp hb
          simpa using hmem.2
        have e1 : ((a :: t).filter (fun x => decide (f x = f b))) =
            t.filter (fun x => decide (f x = f b)) := by
          have : (decide (f a = f b)) = false := by
            simp
            exact fun hcontra => hbne hcontra.symm
          simp [List.filter_cons, this]
        have e2 : (t.filter (fun x => decide (f x ≠ f a))).filter
            (fun x => decide (f x = f b)) = t.filter (fun x => decide (f x = f b)) := by
          rw [List.filter_filter]
          congr 1
          funext x
          by_cases hx : f x = f b
          · have hxa : f x ≠ f a := hx ▸ hbne
            simp [hx, hxa, hbne]
          · simp [hx]
        rw [e1, e2]
      rw [h1, List.map_congr_left h2,
        ih (t.filter (fun x => decide (f x ≠ f a))) ((List.length_filter_le _ _).trans htn)]
      have hsplit : (t.filter (fun x => decide (f x = f a))).length +
          (t.filter (fun x => decide (f x ≠ f a))).length = t.length := by
        have hpred : (fun x => decide (f x ≠ f a)) = (fun x => ! decide (f x = f a)) := by
          funext x
          simp [decide_not]
        rw [hpred]
        exact (List.length_eq_length_filter_add (fun x => decide (f x = f a))).symm
      simp only [List.length_cons]
      omega

/-- Claim C10: for every filter, the time-analysis result always has
median_resolution_days = none — the median is never computed even when
resolved cases exist, though the field is part of the response schema. -/
theorem median_resolution_always_none (db : DB) (s e : Option Date) :
    (service_get_time_analysis db s e).median_resolution_days = none := rfl

/-- Claim C6 (code bug): over a non-empty population of resolved cases whose
mean resolution time is exactly 0.0 days, `get_avg_resolution_time_days`
returns `none` — Python's `round(avg, 2) if avg else None` treats the float
0.0 as falsy — although the claim (and the spec's `average` primitive) require
a zero average over a non-empty sequence to come back as 0.0, distinguishable
from the `None` that means no resolved cases. -/
theorem avg_resolution_zero_mean_returns_none :
    (dbAvgZero.cases.filter (fun c => isTerminal c.status && inDateRange none none c)).map
        resolutionDays = [0] ∧
    sqlAvg [0] = some 0 ∧
    get_avg_resolution_time_days dbAvgZero none none = none := by
  refine ⟨?_, ?_, ?_⟩
  · simp [dbAvgZero, isTerminal, inDateRange, resolutionDays]
  · simp [sqlAvg]
  · simp [get_avg_resolution_time_days, dbAvgZero, isTerminal, inDateRange,
      resolutionDays, sqlAvg, pyTruthyRound2]

/-- Claim C7 (counterexample): a case created exactly at the end bound is
counted by `get_total_pqrs`, although the claim's half-open range
[start, end) would exclude it. -/
theorem end_bound_inclusive_cex :
    dbMidnight.cases.map (fun c => c.created_at.key) = [(Date.toTs ⟨2024, 5, 10⟩).key] ∧
    get_total_pqrs dbMidnight none (some ⟨2024, 5, 10⟩) = 1 := by
  decide

/-- Claim C7 (amended): the date filter is a closed interval [start, end] —
with an end bound present exactly the cases with created_at up to and
including the end bound's midnight are kept, and an absent bound is unbounded
on that side. -/
theorem date_filter_closed_interval (c : Case) (ds de : Date) :
    (inDateRange (some ds) (some de) c = true ↔
      ds.toTs.key ≤ c.created_at.key ∧ c.created_at.key ≤ de.toTs.key) ∧
    (inDateRange none (some de) c = true ↔ c.created_at.key ≤ de.toTs.key) ∧
    (inDateRange (some ds) none c = true ↔ ds.toTs.key ≤ c.created_at.key) ∧
    inDateRange none none c = true := by
  simp [inDateRange]

/-- Claim C9 (counterexample): with one peticion on file, the by-type
breakdown has a single row, not one row for each of the four type values. -/
theorem by_type_rows_not_fixed_cex :
    (get_statistics_by_type dbOnePeticion none none).map (fun r => r.type) = [.peticion] ∧
    (get_statistics_by_type dbOnePeticion none none).length ≠ 4 := by
  decide

/-- Claim C5 (counterexample): two managers tied at one assigned case each
come out in the underlying row order (manager 2 before manager 1), not in
ascending manager-id order — no tie-break is applied. -/
theorem manager_tie_order_cex :
    (get_manager_performance dbTwoManagers none none 10).map (fun r => r.manager_id) = [2, 1] ∧
    (get_manager_performance dbTwoManagers none none 10).map
        (fun r => r.total_assigned) = [1, 1] := by
  decide

/-- Claim C2 (counterexample): under an end bound that excludes every case the
KPI total is 0, yet active_managers is 1 — `get_active_managers_count` is
called without any filter, so it does not describe the filtered population. -/
theorem kpis_filter_inconsistent_cex :
    (get_kpis dbActive none (some ⟨2023, 12, 31⟩)).total_pqrs = 0 ∧
    (get_kpis dbActive none (some ⟨2023, 12, 31⟩)).active_managers = 1 := by
  decide

/-- Claim C1 (counterexample): requesting a 6-month trend window over a store
whose cases span a single month yields 1 point, not 6 — months without
activity are omitted, not emitted as zero points. -/
theorem trends_window_not_fixed_cex :
    (get_trends_by_month dbOneCase none none 6).map (fun r => (r.period, r.count)) =
        [(202401, 1)] ∧
    (get_trends_by_month dbOneCase none none 6).length ≠ 6 := by
  decide

/-- Claim C8 (counterexample): a request whose start bound (2024-12-31) lies
after its end bound (2024-01-01) is not rejected: the endpoint returns a
normal overview whose active_managers value (1) is read from the case store,
so queries were issued despite the invalid filter. -/
theorem invalid_filter_not_rejected_cex :
    (Date.toTs ⟨2024, 1, 1⟩).key < (Date.toTs ⟨2024, 12, 31⟩).key ∧
    (dashboard_overview_endpoint dbActive (ts0 2025 1 1) (some ⟨2024, 12, 31⟩)
        (some ⟨2024, 1, 1⟩)).kpis.total_pqrs = 0 ∧
    (dashboard_overview_endpoint dbActive (ts0 2025 1 1) (some ⟨2024, 12, 31⟩)
        (some ⟨2024, 1, 1⟩)).kpis.active_managers = 1 := by
  decide

/-- Claim C2 (amended): for every date filter, the by-type breakdown counts
sum to the KPI total, the resolution rate is the ratio of the resolved plus
closed counts to the total under the same filter, the average resolution time
is computed over the terminal subset of the same filtered population, and the
average response time is computed over the commented subset of the same
filtered population; but the active-manager count ignores the filter entirely
— it is identical under any two filters, being computed over the whole
store. -/
theorem kpis_population_consistency (db : DB) (s e s2 e2 : Option Date) :
    ((get_statistics_by_type db s e).map (fun r => r.count)).sum =
      (get_kpis db s e).total_pqrs ∧
    (get_kpis db s e).resolution_rate =
      ratio ((get_pqrs_by_status db .resuelta s e + get_pqrs_by_status db .cerrada s e : Nat) : ℚ)
        ((get_total_pqrs db s e : Nat) : ℚ) ∧
    (get_kpis db s e).avg_resolution_time_days =
      pyTruthyRound2 (sqlAvg
        (((filteredCases db s e).filter (fun c => isTerminal c.status)).map resolutionDays)) ∧
    (get_kpis db s e).avg_response_time_hours =
      pyTruthyRound2 (sqlAvg ((filteredCases db s e).filterMap (fun c =>
        match minKey? ((db.comments.filter (fun m => m.pqrs_id == c.id)).map
            (fun m => m.created_at.key)) with
        | some k => some (((k : ℚ) - (c.created_at.key : ℚ)) / 3600)
        | none => none))) ∧
    (get_kpis db s e).active_managers = (get_kpis db s2 e2).active_managers := by
  refine ⟨?_, ?_, ?_, rfl, rfl⟩
  · show ((get_statistics_by_type db s e).map (fun r => r.count)).sum = get_total_pqrs db s e
    unfold get_statistics_by_type
    rw [List.map_map]
    exact sum_group_counts (filteredCases db s e) (fun c => c.type)
  · show get_resolution_rate db s e = _
    unfold get_resolution_rate ratio
    rcases Nat.eq_zero_or_pos (get_total_pqrs db s e) with h | h
    · simp [h]
    · have hne : get_total_pqrs db s e ≠ 0 := Nat.pos_iff_ne_zero.mp h
      have hneQ : ((get_total_pqrs db s e : Nat) : ℚ) ≠ 0 := Nat.cast_ne_zero.mpr hne
      simp [hne, hneQ]
  · show get_avg_resolution_time_days db s e = _
    unfold get_avg_resolution_time_days filteredCases
    rw [List.filter_filter]

/-- Claim C5 (amended): the manager ranking is ordered by total_assigned
descending and truncated to the limit, but no tie-break on the manager id is
applied: managers tied on total_assigned stay in the underlying grouping
order, which need not be ascending by id. -/
theorem manager_ranking_sorted_desc (db : DB) (s e : Option Date) (limit : Nat) :
    List.Sorted byTotalDesc (get_manager_performance db s e limit) ∧
    (get_manager_performance db s e limit).length ≤ limit := by
  constructor
  · exact List.Pairwise.sublist (List.take_sublist _ _)
      (List.sorted_insertionSort byTotalDesc _)
  · exact List.length_take_le _ _

/-- Claim C4: ratio returns 0.0 on a zero denominator and
round(num/den*100, 2) otherwise, as a total function on ℚ (it cannot raise
and cannot produce an infinity or a NaN); in particular the resolution rate
is 0.0 when the filtered total is zero, and every by-type breakdown row then
has percentage 0.0. -/
theorem ratio_zero_denominator_policy (x d : ℚ) (db : DB) (s e : Option Date)
    (hd : d ≠ 0) (h0 : get_total_pqrs db s e = 0) :
    ratio x 0 = 0 ∧
    ratio x d = round2 (x / d * 100) ∧
    get_resolution_rate db s e = 0 ∧
    (get_statistics_by_type db s e).all (fun r => decide (r.percentage = 0)) = true := by
  refine ⟨by simp [ratio], by simp [ratio, hd], ?_, ?_⟩
  · unfold get_resolution_rate
    simp [h0]
  · have hF : filteredCases db s e = [] := by
      have h0l : (filteredCases db s e).length = 0 := h0
      exact List.eq_nil_of_length_eq_zero h0l
    unfold get_statistics_by_type
    simp [hF, distinctKeys_nil]

/-- Witness for the ratio policy at numerator 5, denominator 4 and the empty
store (whose filtered total is zero). -/
theorem ratio_zero_denominator_policy_witness :
    ratio 5 0 = 0 ∧
    ratio 5 4 = round2 (5 / 4 * 100) ∧
    get_resolution_rate dbEmpty none none = 0 ∧
    (get_statistics_by_type dbEmpty none none).all (fun r => decide (r.percentage = 0)) = true :=
  ratio_zero_denominator_policy 5 4 dbEmpty none none (by norm_num) rfl

/-- Shape of a trend series, for any period-label function: one row per
distinct period of the filtered cases capped at the window size, rows
ascending by period, and every row counting at least one case. -/
theorem trendRows_shape (per : Timestamp → Nat) (db : DB) (s e : Option Date) (n : Nat) :
    (trendRows per db s e n).length =
      min n (distinctKeys ((filteredCases db s e).map (fun c => per c.created_at))).length ∧
    List.Sorted (fun a b => a ≤ b) ((trendRows per db s e n).map (fun r => r.period)) ∧
    (trendRows per db s e n).all (fun r => decide (0 < r.count)) = true := by
  have hmap : (trendRows per db s e n).map (fun r => r.period) =
      ((List.insertionSort periodDesc
        (distinctKeys ((filteredCases db s e).map (fun c => per c.created_at)))).take n).reverse := by
    unfold trendRows
    rw [List.map_reverse, List.map_map,
      show ((fun r : TrendRow => r.period) ∘ trendRowOf per (filteredCases db s e)) = id from
        rfl,
      List.map_id]
  refine ⟨?_, ?_, ?_⟩
  · simp [trendRows]
  · rw [hmap]
    apply List.pairwise_reverse.mpr
    exact List.Pairwise.sublist (List.take_sublist _ _)
      (List.sorted_insertionSort periodDesc _)
  · rw [List.all_eq_true]
    intro r hr
    simp only [trendRows, List.mem_reverse] at hr
    obtain ⟨k, hk, rfl⟩ := List.mem_map.mp hr
    have hk2 : k ∈ List.insertionSort periodDesc
        (distinctKeys ((filteredCases db s e).map (fun c => per c.created_at))) :=
      List.take_subset _ _ hk
    rw [List.mem_insertionSort, mem_distinctKeys] at hk2
    obtain ⟨c, hc, hck⟩ := List.mem_map.mp hk2
    have hcmem : c ∈ (filteredCases db s e).filter (fun c2 => decide (per c2.created_at = k)) :=
      List.mem_filter.mpr ⟨hc, by simp [hck]⟩
    simp only [decide_eq_true_eq]
    exact List.length_pos.mpr (List.ne_nil_of_mem hcmem)

/-- Claim C1 (amended): for every requested window n and both granularities,
the trend series contains one point per distinct period among the filtered
cases, capped at n — fewer than n points when fewer periods have data — the
points are ordered chronologically ascending, and every emitted point has a
positive count: periods in the window with no cases are omitted rather than
appearing as explicit zero points. -/
theorem trends_series_shape (db : DB) (s e : Option Date) (n : Nat) :
    ((get_trends_by_month db s e n).length =
        min n (distinctKeys ((filteredCases db s e).map
          (fun c => Timestamp.monthLabel c.created_at))).length ∧
      List.Sorted (fun a b => a ≤ b)
        ((get_trends_by_month db s e n).map (fun r => r.period)) ∧
      (get_trends_by_month db s e n).all (fun r => decide (0 < r.count)) = true) ∧
    ((get_trends_by_week db s e n).length =
        min n (distinctKeys ((filteredCases db s e).map
          (fun c => Timestamp.weekLabel c.created_at))).length ∧
      List.Sorted (fun a b => a ≤ b)
        ((get_trends_by_week db s e n).map (fun r => r.period)) ∧
      (get_trends_by_week db s e n).all (fun r => decide (0 < r.count)) = true) :=
  ⟨trendRows_shape Timestamp.monthLabel db s e n, trendRows_shape Timestamp.weekLabel db s e n⟩

/-- Claim C9 (amended): the by-type breakdown contains exactly one row per
type value that has at least one matching case — a type value appears among
the rows precisely when some filtered case has it, every emitted row has a
positive count, and types with no matching cases are omitted instead of
appearing as zero-count rows. -/
theorem by_type_rows_present_types (db : DB) (s e : Option Date) :
    (get_statistics_by_type db s e).map (fun r => r.type) =
      distinctKeys ((filteredCases db s e).map (fun c => c.type)) ∧
    (∀ t : PType, ((∃ r ∈ get_statistics_by_type db s e, r.type = t) ↔
      ∃ c ∈ filteredCases db s e, c.type = t)) ∧
    (get_statistics_by_type db s e).all (fun r => decide (0 < r.count)) = true := by
  have hmap : (get_statistics_by_type db s e).map (fun r => r.type) =
      distinctKeys ((filteredCases db s e).map (fun c => c.type)) := by
    unfold get_statistics_by_type
    rw [List.map_map,
      show ((fun r : TypeRow => r.type) ∘
          typeRowOf (get_total_pqrs db s e) (filteredCases db s e)) = id from rfl,
      List.map_id]
  refine ⟨hmap, ?_, ?_⟩
  · intro t
    constructor
    · rintro ⟨r, hr, rfl⟩
      have hmem : r.type ∈ (get_statistics_by_type db s e).map (fun r => r.type) :=
        List.mem_map_of_mem _ hr
      rw [hmap, mem_distinctKeys] at hmem
      exact List.mem_map.mp hmem
    · rintro ⟨c, hc, rfl⟩
      have h1 : c.type ∈ distinctKeys ((filteredCases db s e).map (fun c => c.type)) :=
        (mem_distinctKeys _ _).mpr (List.mem_map_of_mem _ hc)
      rw [← hmap] at h1
      exact List.mem_map.mp h1
  · rw [List.all_eq_true]
    intro r hr
    simp only [get_statistics_by_type] at hr
    obtain ⟨k, hk, rfl⟩ := List.mem_map.mp hr
    rw [mem_distinctKeys] at hk
    obtain ⟨c, hc, hck⟩ := List.mem_map.mp hk
    have hcmem : c ∈ (filteredCases db s e).filter (fun c2 => decide (c2.type = k)) :=
      List.mem_filter.mpr ⟨hc, by simp [hck]⟩
    simp only [decide_eq_true_eq]
    exact List.length_pos.mpr (List.ne_nil_of_mem hcmem)

/-- Claim C8 (amended): a filter with start after end is not rejected — no
validation exists on the path — instead every date-filtered query runs
normally against an unsatisfiable bound pair and returns an empty population
(zero total, no breakdown rows, no trend points), while the unfiltered
active-manager count still reflects the whole store. -/
theorem invalid_range_runs_and_empty (db : DB) (now : Timestamp) (ds de : Date)
    (h : de.toTs.key < ds.toTs.key) :
    get_total_pqrs db (some ds) (some de) = 0 ∧
    get_statistics_by_type db (some ds) (some de) = [] ∧
    (∀ n, get_trends_by_month db (some ds) (some de) n = []) ∧
    (dashboard_overview_endpoint db now (some ds) (some de)).kpis.active_managers =
      get_active_managers_count db := by
  have hF : filteredCases db (some ds) (some de) = [] := by
    unfold filteredCases
    rw [List.filter_eq_nil_iff]
    intro c hc
    simp only [inDateRange, Bool.and_eq_true, decide_eq_true_eq]
    rintro ⟨h1, h2⟩
    omega
  refine ⟨?_, ?_, ?_, rfl⟩
  · show (filteredCases db (some ds) (some de)).length = 0
    rw [hF]
    rfl
  · unfold get_statistics_by_type
    simp [hF, distinctKeys_nil]
  · intro n
    unfold get_trends_by_month trendRows
    simp [hF, distinctKeys_nil]

/-- Witness for the invalid-range behaviour: with start 2024-12-31 after end
2024-01-01 over a non-empty store, the total is 0 and the 6-month trend
series is empty. -/
theorem invalid_range_runs_and_empty_witness :
    get_total_pqrs dbActive (some ⟨2024, 12, 31⟩) (some ⟨2024, 1, 1⟩) = 0 ∧
    get_trends_by_month dbActive (some ⟨2024, 12, 31⟩) (some ⟨2024, 1, 1⟩) 6 = [] := by
  have h := invalid_range_runs_and_empty dbActive (ts0 2025 1 1) ⟨2024, 12, 31⟩
    ⟨2024, 1, 1⟩ (by decide)
  exact ⟨h.1, h.2.2.1 6⟩

/-- The non-terminal branch of `classify`, written with its raw integer
comparisons, once the deadline is well formed. -/
theorem classify_branches (c : Case) (now : Nat) (hterm : isTerminal c.status = false)
    (hdue : (c.created_at.key : Int) < (c.due_date.key : Int)) :
    classify c now =
      (if ((now : Int) - (c.created_at.key : Int)) * 100 <
          60 * ((c.due_date.key : Int) - (c.created_at.key : Int)) then SlaState.on_track
       else if ((now : Int) - (c.created_at.key : Int)) * 100 ≤
          90 * ((c.due_date.key : Int) - (c.created_at.key : Int)) then SlaState.at_risk
       else SlaState.overdue) := by
  have hA : ¬((c.due_date.key : Int) - (c.created_at.key : Int) ≤ 0) := by omega
  simp [classify, hterm, hA, SEMAPHORE_GREEN_THRESHOLD, SEMAPHORE_YELLOW_THRESHOLD]

/-- Claim C3: SLA classification yields on_track whenever the case's status
is terminal, regardless of elapsed time; otherwise, with
fraction = (now - created_at) / (due_at - created_at), it yields on_track
exactly when fraction < 0.60, at_risk exactly when 0.60 <= fraction <= 0.90,
and overdue exactly when fraction > 0.90 (the classifier is modelled from the
spec over the config thresholds 60 and 90 declared in the source). -/
theorem sla_classification_spec (c : Case) (now : Nat) :
    (isTerminal c.status = true → classify c now = SlaState.on_track) ∧
    (isTerminal c.status = false → (c.created_at.key : Int) < (c.due_date.key : Int) →
      ((classify c now = SlaState.on_track ↔ slaFraction c now < 3/5) ∧
       (classify c now = SlaState.at_risk ↔
         3/5 ≤ slaFraction c now ∧ slaFraction c now ≤ 9/10) ∧
       (classify c now = SlaState.overdue ↔ 9/10 < slaFraction c now))) := by
  constructor
  · intro h
    simp [classify, h]
  · intro hterm hdue
    rw [classify_branches c now hterm hdue]
    have hApos : (0 : Int) < (c.due_date.key : Int) - (c.created_at.key : Int) := by omega
    set E : Int := (now : Int) - (c.created_at.key : Int) with hEdef
    set A : Int := (c.due_date.key : Int) - (c.created_at.key : Int) with hAdef
    have hAQ : (0 : ℚ) < (A : ℚ) := by exact_mod_cast hApos
    have hfrac : slaFraction c now = (E : ℚ) / (A : ℚ) := by
      unfold slaFraction
      rw [hEdef, hAdef]
      push_cast
      ring
    have key1 : slaFraction c now < 3/5 ↔ E * 100 < 60 * A := by
      rw [hfrac, div_lt_iff₀ hAQ]
      constructor
      · intro hlt
        have h2 : (E : ℚ) * 100 < 60 * (A : ℚ) := by linarith
        exact_mod_cast h2
      · intro hlt
        have h2 : (E : ℚ) * 100 < 60 * (A : ℚ) := by exact_mod_cast hlt
        linarith
    have key2 : slaFraction c now ≤ 9/10 ↔ E * 100 ≤ 90 * A := by
      rw [hfrac, div_le_iff₀ hAQ]
      constructor
      · intro hle
        have h2 : (E : ℚ) * 100 ≤ 90 * (A : ℚ) := by linarith
        exact_mod_cast h2
      · intro hle
        have h2 : (E : ℚ) * 100 ≤ 90 * (A : ℚ) := by exact_mod_cast hle
        linarith
    by_cases h1 : E * 100 < 60 * A
    · rw [if_pos h1]
      have hf : slaFraction c now < 3/5 := key1.mpr h1
      refine ⟨iff_of_true rfl hf, iff_of_false (by simp) ?_, iff_of_false (by simp) ?_⟩
      · rintro ⟨ha, _⟩
        linarith
      · intro ha
        linarith
    · rw [if_neg h1]
      have hge : 3/5 ≤ slaFraction c now := by
        by_contra hcon
        exact h1 (key1.mp (not_le.mp hcon))
      by_cases h2 : E * 100 ≤ 90 * A
      · rw [if_pos h2]
        have hle : slaFraction c now ≤ 9/10 := key2.mpr h2
        refine ⟨iff_of_false (by simp) ?_, iff_of_true rfl ⟨hge, hle⟩,
          iff_of_false (by simp) ?_⟩
        · intro ha
          linarith
        · intro ha
          linarith
      · rw [if_neg h2]
        have hgt : 9/10 < slaFraction c now := by
          by_contra hcon
          exact h2 (key2.mp (not_lt.mp hcon))
        refine ⟨iff_of_false (by simp) ?_, iff_of_false (by simp) ?_,
          iff_of_true rfl hgt⟩
        · intro ha
          linarith
        · rintro ⟨_, hb⟩
          linarith

/-- Witness for the SLA classification: the unresolved case created 100 days
before its 100-day deadline is overdue at the deadline instant (fraction 1 >
0.9), and the same case marked resolved is on track. -/
theorem sla_classification_spec_witness :
    classify case100 now100 = SlaState.overdue ∧
    classify case100res now100 = SlaState.on_track := by
  constructor
  · exact ((sla_classification_spec case100 now100).2 (by decide) (by decide)).2.2.mpr
      (by norm_num [slaFraction, case100, now100, ts0, Timestamp.key])
  · exact (sla_classification_spec case100res now100).1 (by decide)

end Pqrs
